import Mathlib

/-!
Verification of the SkipOn anonymous matchmaking core
(`backend/redis_service.py` and the `/skip/*` endpoints of `backend/server.py`).

Shallow embedding conventions:
* Timestamps are opaque `Nat` values (the Python code passes ISO strings and
  converts them to numeric scores with `datetime.fromisoformat(...).timestamp()`;
  the conversion is injective on the values the code produces, so the embedding
  identifies a timestamp with its score).
* Python `None`-able strings are `Option String`; Python string truthiness
  (`if s:`) is `s ≠ ""` on a present value.
* Redis hashes / keys are association lists keyed by `String`; a Redis sorted
  set is a list of members kept sorted by score (ties keep insertion order,
  which stands in for Redis' lexicographic tie order; no theorem below depends
  on tie order).
* TTL expiry and concurrency are not modelled: each endpoint body runs
  sequentially, as the Python `await` chain does within one request.
-/

/-- `Gender` enum from `backend/models.py` (`male` / `female` / `other`). -/
inductive Gender
  | male
  | female
  | other
deriving DecidableEq, Repr

/-- `RedisQueueService._are_genders_compatible` (redis_service.py:236-245):
`other`/`other` compatible, `male`/`female` and `female`/`male` compatible,
everything else not. -/
def are_genders_compatible (gender1 gender2 : Gender) : Bool :=
  if gender1 = Gender.other ∧ gender2 = Gender.other then true
  else if (gender1 = Gender.male ∧ gender2 = Gender.female) ∨
          (gender1 = Gender.female ∧ gender2 = Gender.male) then true
  else false

/-- A waiting queue entry (`{userId, isGuest, gender, timestamp}`),
the record `add_to_queue` stores. -/
structure QueueEntry where
  userId : String
  isGuest : Bool
  gender : Gender
  timestamp : Nat
deriving DecidableEq, Repr

/-- A room record as stored by the fallback dictionary (and as read back by
`get_room`): the id slots are `Option` because the code reads them with
`room.get('user1Id')`, which yields `None` when the key is absent. -/
structure FRoom where
  user1Id : Option String
  user2Id : Option String
  user1IsGuest : Bool
  user2IsGuest : Bool
  user1Gender : Gender
  user2Gender : Gender
  createdAt : Nat
deriving DecidableEq, Repr

/-- Association-list lookup (Python dict read). -/
def alookup {α : Type} : List (String × α) → String → Option α
  | [], _ => none
  | (k, v) :: rest, key => if k = key then some v else alookup rest key

/-- Association-list delete (Python `del d[k]` / absent-key tolerant). -/
def aerase {α : Type} (l : List (String × α)) (k : String) : List (String × α) :=
  l.filter (fun p => p.1 ≠ k)

/-- Association-list overwrite (Python `d[k] = v`). -/
def aset {α : Type} (l : List (String × α)) (k : String) (v : α) : List (String × α) :=
  (k, v) :: aerase l k

/-- Python string truthiness of an optional string: present and non-empty. -/
def truthyOpt : Option String → Bool
  | none => false
  | some s => s ≠ ""

/-- The membership test `any(u['userId'] == userId for u in queue)` used by
`add_to_queue`, `is_user_in_queue` and `claim_partner_for_matching`. -/
def queueHasUser (l : List QueueEntry) (userId : String) : Bool :=
  l.any (fun u => u.userId = userId)

/-- The in-process fallback store of `RedisQueueService`
(`fallback_queue`, `fallback_rooms`, `fallback_user_to_room`). -/
structure Store where
  queue : List QueueEntry
  rooms : List (String × FRoom)
  userToRoom : List (String × String)
deriving DecidableEq, Repr

/-- The empty fallback store (`RedisQueueService.__init__`). -/
def Store.init : Store := ⟨[], [], []⟩

/-- `add_to_queue`, fallback branch (redis_service.py:84-94): append the
record only when no entry with this `userId` is present; always return ok. -/
def add_to_queue (st : Store) (userId : String) (isGuest : Bool)
    (gender : Gender) (timestamp : Nat) : Bool × Store :=
  if queueHasUser st.queue userId then (true, st)
  else (true, { st with queue := st.queue ++ [⟨userId, isGuest, gender, timestamp⟩] })

/-- `remove_from_queue`, fallback branch (redis_service.py:132-134). -/
def remove_from_queue (st : Store) (userId : String) : Bool × Store :=
  (true, { st with queue := st.queue.filter (fun u => u.userId ≠ userId) })

/-- `get_queue_length`, fallback branch (redis_service.py:163-166). -/
def get_queue_length (st : Store) : Nat :=
  st.queue.length

/-- `is_user_in_queue`, fallback branch (redis_service.py:364-365). -/
def is_user_in_queue (st : Store) (userId : String) : Bool :=
  queueHasUser st.queue userId

/-- `get_compatible_partners`, fallback branch (redis_service.py:186-200):
all queue entries other than the caller whose gender is compatible,
in queue (FIFO) order. -/
def get_compatible_partners (st : Store) (userId : String) (userGender : Gender) :
    List QueueEntry :=
  st.queue.filter (fun u => u.userId ≠ userId && are_genders_compatible userGender u.gender)

/-- `create_room`, fallback branch (redis_service.py:253-265): store the room
record and map both users to the room id; always ok. -/
def create_room (st : Store) (roomId user1Id user2Id : String)
    (user1IsGuest user2IsGuest : Bool) (user1Gender user2Gender : Gender)
    (now : Nat) : Bool × Store :=
  (true,
    { st with
      rooms := aset st.rooms roomId
        ⟨some user1Id, some user2Id, user1IsGuest, user2IsGuest,
         user1Gender, user2Gender, now⟩,
      userToRoom := aset (aset st.userToRoom user1Id roomId) user2Id roomId })

/-- `get_room`, fallback branch (redis_service.py:299-300). -/
def get_room (st : Store) (roomId : String) : Option FRoom :=
  alookup st.rooms roomId

/-- `get_user_room`, fallback branch (redis_service.py:316-317). -/
def get_user_room (st : Store) (userId : String) : Option String :=
  alookup st.userToRoom userId

/-- `delete_room`, fallback branch (redis_service.py:328-338): when the room
exists, drop it and delete the reverse-index entries of the two ids recorded
in the room (a `None` slot matches no dict key, hence deletes nothing). -/
def delete_room (st : Store) (roomId : String) : Bool × Store :=
  match alookup st.rooms roomId with
  | none => (true, st)
  | some room =>
    let st1 : Store := { st with rooms := aerase st.rooms roomId }
    let st2 : Store :=
      match room.user1Id with
      | some u1 => { st1 with userToRoom := aerase st1.userToRoom u1 }
      | none => st1
    let st3 : Store :=
      match room.user2Id with
      | some u2 => { st2 with userToRoom := aerase st2.userToRoom u2 }
      | none => st2
    (true, st3)

/-- `claim_partner_for_matching`, fallback branch (redis_service.py:381-389):
check-and-remove — succeed exactly when the partner is still queued, removing
the partner's entry. No claim record exists in fallback mode. -/
def claim_partner_fallback (st : Store) (partnerId : String) : Bool × Store :=
  if queueHasUser st.queue partnerId then
    (true, { st with queue := st.queue.filter (fun u => u.userId ≠ partnerId) })
  else (false, st)

/-- `release_partner_claim`, fallback branch (redis_service.py:431-432): no-op. -/
def release_partner_claim_fallback (st : Store) : Store := st

/-- C3: the compatibility rule returns true exactly for the pairs
(male,female), (female,male) and (other,other); it is a total function on
the closed gender set. -/
theorem C3_gender_compatibility (g1 g2 : Gender) :
    are_genders_compatible g1 g2 = true ↔
      ((g1 = Gender.male ∧ g2 = Gender.female) ∨
       (g1 = Gender.female ∧ g2 = Gender.male) ∨
       (g1 = Gender.other ∧ g2 = Gender.other)) := by
  cases g1 <;> cases g2 <;> simp [are_genders_compatible]

/-! ## Redis-backed paths of `RedisQueueService`

The Redis branch of each operation, modelled over a pure `RedisState`.
`skipon:queue:{g}` sorted sets keep their members sorted by score (= the
entry's timestamp, since `zadd` scores each serialized record with
`datetime.fromisoformat(timestamp).timestamp()`). -/

/-- The per-user metadata hash `skipon:user:{userId}`
(written by `add_to_queue`, redis_service.py:112-120). -/
structure UserMeta where
  isGuest : Bool
  gender : Gender
  timestamp : Nat
deriving DecidableEq, Repr

/-- A claim record `skipon:claiming:{partnerId}` — value is the claimant id,
`ttlSeconds` the expiry passed to `SET ... EX` (redis_service.py:392-396). -/
structure ClaimRec where
  claimant : String
  ttlSeconds : Nat
deriving DecidableEq, Repr

/-- A room hash `skipon:room:{roomId}` as written by the Redis branch of
`create_room` (redis_service.py:271-281); all fields are always written. -/
structure RRoom where
  user1Id : String
  user2Id : String
  user1IsGuest : Bool
  user2IsGuest : Bool
  user1Gender : Gender
  user2Gender : Gender
  createdAt : Nat
deriving DecidableEq, Repr

/-- The Redis keyspace used by the service: one sorted set per gender,
user metadata, room hashes, the user→room index and the claim keys. -/
structure RedisState where
  qmale : List QueueEntry
  qfemale : List QueueEntry
  qother : List QueueEntry
  users : List (String × UserMeta)
  rooms : List (String × RRoom)
  userRoom : List (String × String)
  claims : List (String × ClaimRec)
deriving DecidableEq, Repr

/-- The empty Redis keyspace. -/
def RedisState.init : RedisState := ⟨[], [], [], [], [], [], []⟩

/-- The sorted set `skipon:queue:{gender}`. -/
def queueFor (st : RedisState) : Gender → List QueueEntry
  | Gender.male => st.qmale
  | Gender.female => st.qfemale
  | Gender.other => st.qother

/-- Replace the sorted set of one gender. -/
def setQueue (st : RedisState) (g : Gender) (l : List QueueEntry) : RedisState :=
  match g with
  | Gender.male => { st with qmale := l }
  | Gender.female => { st with qfemale := l }
  | Gender.other => { st with qother := l }

/-- Insert a member into a score-sorted list, after members of smaller or
equal score (score = `timestamp`). -/
def zinsert : List QueueEntry → QueueEntry → List QueueEntry
  | [], e => [e]
  | x :: xs, e =>
    if x.timestamp ≤ e.timestamp then x :: zinsert xs e else e :: x :: xs

/-- `ZADD key {member: score}`: a present member keeps its (equal) score,
a new member is inserted in score order. Members are whole serialized
records, so equality is record equality. -/
def zaddEntry (l : List QueueEntry) (e : QueueEntry) : List QueueEntry :=
  if e ∈ l then l else zinsert l e

/-- The loop `for member in zrange(key, 0, -1): if userId matches: zrem; break`
(redis_service.py:144-149 and 412-419): remove the first member, in score
order, whose `userId` matches. -/
def zremUser : List QueueEntry → String → List QueueEntry
  | [], _ => []
  | x :: xs, u => if x.userId = u then xs else x :: zremUser xs u

/-- `add_to_queue`, Redis branch (redis_service.py:96-123): `zadd` the record
into the gender queue and overwrite the `skipon:user:{userId}` metadata. -/
def add_to_queue_redis (st : RedisState) (userId : String) (isGuest : Bool)
    (gender : Gender) (timestamp : Nat) : RedisState :=
  let e : QueueEntry := ⟨userId, isGuest, gender, timestamp⟩
  let st1 := setQueue st gender (zaddEntry (queueFor st gender) e)
  { st1 with users := aset st1.users userId ⟨isGuest, gender, timestamp⟩ }

/-- `remove_from_queue`, Redis branch (redis_service.py:136-155): read the
user's gender from the metadata (skip everything when absent), remove the
first matching member of that gender queue, delete the metadata. -/
def remove_from_queue_redis (st : RedisState) (userId : String) : RedisState :=
  match alookup st.users userId with
  | none => st
  | some meta =>
    let st1 := setQueue st meta.gender (zremUser (queueFor st meta.gender) userId)
    { st1 with users := aerase st1.users userId }

/-- `is_user_in_queue`, Redis branch (redis_service.py:367-370): the
metadata key exists. -/
def is_user_in_queue_redis (st : RedisState) (userId : String) : Bool :=
  (alookup st.users userId).isSome

/-- `get_queue_length`, Redis branch (redis_service.py:168-179). -/
def get_queue_length_redis (st : RedisState) : Nat :=
  st.qmale.length + st.qfemale.length + st.qother.length

/-- `get_compatible_partners`, Redis branch (redis_service.py:202-230):
male checks the `female` and `other` queues, female checks `male` and
`other`, other checks `other`; from each checked queue take
`zrange(key, 0, 0)` (the single oldest member) and keep it unless it is
the caller. -/
def get_compatible_partners_redis (st : RedisState) (userId : String)
    (userGender : Gender) : List QueueEntry :=
  let check_genders : List Gender :=
    match userGender with
    | Gender.male => [Gender.female, Gender.other]
    | Gender.female => [Gender.male, Gender.other]
    | Gender.other => [Gender.other]
  check_genders.foldl
    (fun compatible g =>
      match (queueFor st g).head? with
      | none => compatible
      | some e => if e.userId ≠ userId then compatible ++ [e] else compatible)
    []

/-- `create_room`, Redis branch (redis_service.py:267-289). -/
def create_room_redis (st : RedisState) (roomId user1Id user2Id : String)
    (user1IsGuest user2IsGuest : Bool) (user1Gender user2Gender : Gender)
    (now : Nat) : RedisState :=
  let room : RRoom :=
    ⟨user1Id, user2Id, user1IsGuest, user2IsGuest, user1Gender, user2Gender, now⟩
  let st1 := { st with rooms := aset st.rooms roomId room }
  { st1 with userRoom := aset (aset st1.userRoom user1Id roomId) user2Id roomId }

/-- `get_room`, Redis branch (redis_service.py:302-309). -/
def get_room_redis (st : RedisState) (roomId : String) : Option RRoom :=
  alookup st.rooms roomId

/-- `get_user_room`, Redis branch (redis_service.py:319-321). -/
def get_user_room_redis (st : RedisState) (userId : String) : Option String :=
  alookup st.userRoom userId

/-- `delete_room`, Redis branch (redis_service.py:340-356): delete the two
reverse-index keys for the (truthy) ids recorded in the room, then the room. -/
def delete_room_redis (st : RedisState) (roomId : String) : RedisState :=
  let st1 :=
    match alookup st.rooms roomId with
    | none => st
    | some room =>
      let sta := if room.user1Id ≠ "" then { st with userRoom := aerase st.userRoom room.user1Id } else st
      if room.user2Id ≠ "" then { sta with userRoom := aerase sta.userRoom room.user2Id } else sta
  { st1 with rooms := aerase st1.rooms roomId }

/-- `claim_partner_for_matching`, Redis branch (redis_service.py:391-423):
`SET skipon:claiming:{partnerId} userId NX EX 5`; on success verify the
partner still has metadata and a queue entry — otherwise drop the claim and
fail; on a found queue entry remove it and the metadata and succeed,
keeping the claim key installed. -/
def claim_partner_redis (st : RedisState) (userId partnerId : String) :
    Bool × RedisState :=
  match alookup st.claims partnerId with
  | some _ => (false, st)
  | none =>
    let st1 := { st with claims := aset st.claims partnerId ⟨userId, 5⟩ }
    match alookup st1.users partnerId with
    | none => (false, { st1 with claims := aerase st1.claims partnerId })
    | some meta =>
      if queueHasUser (queueFor st1 meta.gender) partnerId then
        let st2 := setQueue st1 meta.gender (zremUser (queueFor st1 meta.gender) partnerId)
        (true, { st2 with users := aerase st2.users partnerId })
      else (false, { st1 with claims := aerase st1.claims partnerId })

/-- `release_partner_claim`, Redis branch (redis_service.py:434-436). -/
def release_partner_claim_redis (st : RedisState) (partnerId : String) : RedisState :=
  { st with claims := aerase st.claims partnerId }

/-! ## Association-list lemmas -/

theorem alookup_aerase {α : Type} (l : List (String × α)) (k key : String) :
    alookup (aerase l k) key = if key = k then none else alookup l key := by
  induction l with
  | nil => simp [aerase, alookup]
  | cons p rest ih =>
    obtain ⟨pk, pv⟩ := p
    simp only [aerase, List.filter_cons] at ih ⊢
    by_cases hpk : pk = k <;> by_cases hkey : key = k <;>
      by_cases hpkey : pk = key <;> simp_all [alookup]

theorem alookup_aset {α : Type} (l : List (String × α)) (k key : String) (v : α) :
    alookup (aset l k v) key = if k = key then some v else alookup l key := by
  simp only [aset, alookup, alookup_aerase]
  by_cases h : k = key
  · simp [h]
  · have h2 : ¬key = k := fun hh => h hh.symm
    simp [h, h2]

/-! ## C2 — the claim protocol -/

/-- A Redis state holding a live claim on `bob` by `carol` and nothing else. -/
def c2Claimed : RedisState :=
  { RedisState.init with claims := [("bob", ⟨"carol", 5⟩)] }

/-- C2 counterexample: in the empty store no live claim record for `bob`
exists, yet `claim_partner_for_matching("alice", "bob")` is **not** granted
(the candidate has left the queue), refuting "granted exactly when no live
claim record exists". -/
theorem C2_claim_counterexample :
    alookup RedisState.init.claims "bob" = none ∧
    (claim_partner_redis RedisState.init "alice" "bob").1 = false := by
  exact ⟨rfl, rfl⟩

theorem queueFor_set_claims (st : RedisState) (c : List (String × ClaimRec))
    (g : Gender) : queueFor { st with claims := c } g = queueFor st g := by
  cases g <;> rfl

theorem queueFor_setQueue_self (st : RedisState) (g : Gender)
    (l : List QueueEntry) : queueFor (setQueue st g l) g = l := by
  cases g <;> rfl

theorem claims_setQueue (st : RedisState) (g : Gender) (l : List QueueEntry) :
    (setQueue st g l).claims = st.claims := by
  cases g <;> rfl

/-- C2 amended: `claim(candidateId, claimantId)` (Redis path) is granted
exactly when no live claim record for the candidate exists AND the candidate
still has queue metadata and a queue entry; on a grant the claim record
`claimantId` with a 5-second expiry is installed (and the candidate removed
from the queue); a live claim makes the call return false and leave the
state unchanged, whoever the claimant is. -/
theorem C2_claim_amended (st : RedisState) (userId partnerId : String) :
    ((claim_partner_redis st userId partnerId).1 = true ↔
      (alookup st.claims partnerId = none ∧
       ∃ meta, alookup st.users partnerId = some meta ∧
         queueHasUser (queueFor st meta.gender) partnerId = true))
    ∧ ((claim_partner_redis st userId partnerId).1 = true →
        alookup (claim_partner_redis st userId partnerId).2.claims partnerId =
          some ⟨userId, 5⟩)
    ∧ (∀ c, alookup st.claims partnerId = some c →
        claim_partner_redis st userId partnerId = (false, st)) := by
  refine ⟨?_, ?_, ?_⟩
  · unfold claim_partner_redis
    cases halc : alookup st.claims partnerId with
    | some c => simp [halc]
    | none =>
      cases halu : alookup st.users partnerId with
      | none => simp [halu]
      | some meta =>
        simp only [halu, queueFor_set_claims]
        by_cases hq : queueHasUser (queueFor st meta.gender) partnerId = true
        · simp [hq]
        · simp only [Bool.not_eq_true] at hq
          simp [hq]
  · unfold claim_partner_redis
    cases halc : alookup st.claims partnerId with
    | some c => simp [halc]
    | none =>
      cases halu : alookup st.users partnerId with
      | none => simp [halu]
      | some meta =>
        simp only [halu, queueFor_set_claims]
        by_cases hq : queueHasUser (queueFor st meta.gender) partnerId = true
        · simp [hq, claims_setQueue, alookup_aset]
        · simp only [Bool.not_eq_true] at hq
          simp [hq]
  · intro c hc
    unfold claim_partner_redis
    simp [hc]

/-- Witness for C2's amended theorem: a live claim on `bob` denies a second
claim and leaves the state unchanged. -/
theorem C2_claim_amended_witness :
    claim_partner_redis c2Claimed "alice" "bob" = (false, c2Claimed) :=
  (C2_claim_amended c2Claimed "alice" "bob").2.2 ⟨"carol", 5⟩ rfl

/-! ## C4 — listCompatible (Redis path) returns an incompatible partner -/

/-- Redis state whose `skipon:queue:other` sorted set holds one waiting
entry `x` of gender `other`; every other key is empty. -/
def c4Redis : RedisState :=
  { RedisState.init with qother := [⟨"x", true, Gender.other, 5⟩] }

/-- C4 failing input: a `male` requester receives the gender-`other` entry
`x` as a "compatible" partner, although `_are_genders_compatible(male, other)`
is false — the Redis branch scans the `other` bucket for male (and female)
requesters, contradicting the compatibility rule and the function's own
docstring ("opposite gender or both OTHER"). -/
theorem C4_redis_incompatible_partner :
    get_compatible_partners_redis c4Redis "m" Gender.male =
      [⟨"x", true, Gender.other, 5⟩]
    ∧ are_genders_compatible Gender.male Gender.other = false := by
  exact ⟨rfl, rfl⟩

/-! ## C5 — enqueue idempotence -/

/-- Redis state in which participant `u` is waiting (queue entry with
timestamp 1, plus matching metadata). -/
def c5Redis : RedisState :=
  { RedisState.init with
    qfemale := [⟨"u", false, Gender.female, 1⟩],
    users := [("u", ⟨false, Gender.female, 1⟩)] }

/-- C5 counterexample: participant `u` is already present, yet re-enqueueing
with a new timestamp (2 instead of 1) leaves TWO queue members for `u` —
the Redis branch `zadd`s the whole serialized record, so a different
timestamp is a different member, refuting "no duplicate entry is created,
whatever the new timestamp". -/
theorem C5_enqueue_counterexample :
    is_user_in_queue_redis c5Redis "u" = true ∧
    ((add_to_queue_redis c5Redis "u" false Gender.female 2).qfemale.filter
        (fun e => e.userId = "u")).length = 2 := by
  exact ⟨rfl, rfl⟩

theorem queueFor_set_users (st : RedisState) (u : List (String × UserMeta))
    (g : Gender) : queueFor { st with users := u } g = queueFor st g := by
  cases g <;> rfl

/-- C5 amended: enqueue is idempotent in the fallback branch — a present
participant makes `add_to_queue` return ok with the store unchanged; in the
Redis branch only re-adding the *identical* record (same guest flag, gender
and timestamp) leaves the queue unchanged, while a changed timestamp adds a
second member for the same participant (see the counterexample). -/
theorem C5_enqueue_idempotent_amended (st : Store) (rst : RedisState)
    (userId : String) (isGuest : Bool) (gender : Gender) (ts : Nat) :
    (is_user_in_queue st userId = true →
      add_to_queue st userId isGuest gender ts = (true, st))
    ∧ ((⟨userId, isGuest, gender, ts⟩ : QueueEntry) ∈ queueFor rst gender →
      queueFor (add_to_queue_redis rst userId isGuest gender ts) gender =
        queueFor rst gender) := by
  constructor
  · intro h
    unfold add_to_queue
    unfold is_user_in_queue at h
    simp [h]
  · intro h
    unfold add_to_queue_redis zaddEntry
    simp only [queueFor_set_users, queueFor_setQueue_self, if_pos h]

/-- Witness for C5's amended theorem: re-adding an already-present `u`
in fallback mode is a no-op returning ok. -/
theorem C5_enqueue_idempotent_amended_witness :
    add_to_queue ⟨[⟨"u", true, Gender.other, 0⟩], [], []⟩ "u" true Gender.other 9 =
      (true, ⟨[⟨"u", true, Gender.other, 0⟩], [], []⟩) :=
  (C5_enqueue_idempotent_amended ⟨[⟨"u", true, Gender.other, 0⟩], [], []⟩
    RedisState.init "u" true Gender.other 9).1 (by decide)

/-! ## The `/skip/*` endpoints of server.py (fallback-mode store semantics)

Each endpoint body is a pure function of the fallback store plus the
request-level inputs.  `verifyTok` abstracts the external JWT decoder
`auth.verify_token`: it returns the payload's `sub` when decoding succeeds,
`none` for an invalid token, a decode exception, or a payload without `sub`. -/

/-- Char-list version of Python `str.startswith` (first argument is the
candidate prefix characters). -/
def isPreOf : List Char → List Char → Bool
  | [], _ => true
  | _ :: _, [] => false
  | a :: as, b :: bs => a = b && isPreOf as bs

/-- Python `s.startswith(p)`. -/
def startsWithStr (s p : String) : Bool :=
  isPreOf p.data s.data

/-- Python whitespace for `str.strip()`. -/
def isWs (c : Char) : Bool :=
  c = ' ' || c = '\t' || c = '\n' || c = '\r' || c = '\x0b' || c = '\x0c'

/-- Python `s.strip()`. -/
def stripStr (s : String) : String :=
  String.mk ((s.data.dropWhile isWs).reverse.dropWhile isWs).reverse

/-- Python `s.split(sep)` for a single-character separator (keeps empty
segments, exactly like `str.split(" ")`). -/
def splitOnChar : List Char → Char → List (List Char)
  | [], _ => [[]]
  | c :: cs, sep =>
    match splitOnChar cs sep with
    | r :: rs => if c = sep then [] :: r :: rs else (c :: r) :: rs
    | [] => [[c]]

/-- `authorization.split(" ")[1]` (guarded in the code by
`startswith("Bearer ")`, which guarantees the segment exists). -/
def bearerToken (a : String) : String :=
  String.mk (((splitOnChar a.data ' ').drop 1).headD [])

/-- `SkipMatchRequest` (models.py:196-198): optional guest id and gender. -/
structure SkipMatchRequest where
  guestId : Option String
  gender : Option Gender
deriving DecidableEq, Repr

/-- `SkipLeaveRequest` (models.py:200-201). -/
structure SkipLeaveRequest where
  guestId : Option String
deriving DecidableEq, Repr

/-- `/skip/match` response: `{status: "searching"}` or
`{status: "matched", roomId, partnerId, isPartnerGuest}`. -/
inductive MatchResp
  | searching
  | matched (roomId : String) (partnerId : String) (isPartnerGuest : Bool)
deriving DecidableEq, Repr

/-- `/skip/status` response; `matchedStatus` carries the `partnerId` slot,
which the code never validates and may therefore be `None`. -/
inductive StatusResp
  | idle
  | searching
  | matchedStatus (roomId : String) (partnerId : Option String)
deriving DecidableEq, Repr

/-- `/skip/leave` response: always `{status: "left"}`. -/
inductive LeaveResp
  | left
deriving DecidableEq, Repr

/-- Token-derived identity of `skip_match` (server.py:822-845): a non-empty
`Bearer` authorization whose token is not a `demo_guest_token_` and whose
verification yields a truthy `sub`. -/
def token_identity (verifyTok : String → Option String)
    (authorization : Option String) : Option String :=
  match authorization with
  | none => none
  | some a =>
    if a ≠ "" ∧ startsWithStr a "Bearer " = true then
      if startsWithStr (bearerToken a) "demo_guest_token_" then none
      else
        match verifyTok (bearerToken a) with
        | some sub => if sub ≠ "" then some sub else none
        | none => none
    else none

/-- Token-derived identity of `skip_leave` (server.py:1214-1226) — same as
`skip_match`'s but without the demo-guest-token special case. -/
def token_identity_leave (verifyTok : String → Option String)
    (authorization : Option String) : Option String :=
  match authorization with
  | none => none
  | some a =>
    if a ≠ "" ∧ startsWithStr a "Bearer " = true then
      match verifyTok (bearerToken a) with
      | some sub => if sub ≠ "" then some sub else none
      | none => none
    else none

/-- Guest identity from the `skip_match` request body: a truthy `guestId`
(server.py:850-853). -/
def guest_identity (request : Option SkipMatchRequest) : Option String :=
  match request with
  | some r =>
    match r.guestId with
    | some g => if g ≠ "" then some g else none
    | none => none
  | none => none

/-- Identity resolution of `skip_match` (server.py:808-870): token identity
first (authenticated, not a guest), then the request's guest id (a guest);
neither derivable → HTTP 400, no synthetic id is minted. -/
def resolve_identity (verifyTok : String → Option String)
    (request : Option SkipMatchRequest) (authorization : Option String) :
    Except Unit (String × Bool) :=
  match token_identity verifyTok authorization with
  | some uid => Except.ok (uid, false)
  | none =>
    match guest_identity request with
    | some gid => Except.ok (gid, true)
    | none => Except.error ()

/-- Gender resolution of `skip_match` (server.py:813-820): the request's
gender when present (enum values are truthy strings), else `Gender.OTHER`. -/
def resolve_gender (request : Option SkipMatchRequest) : Gender :=
  match request with
  | some r =>
    match r.gender with
    | some g => g
    | none => Gender.other
  | none => Gender.other

/-- A room acceptable to the matchmaker's "CRITICAL" checks: both slots
present, truthy, and distinct. -/
def wellFormedRoom (room : FRoom) : Bool :=
  truthyOpt room.user1Id && truthyOpt room.user2Id &&
    decide (room.user1Id ≠ room.user2Id)

/-- The already-matched check at the top of `skip_match` (server.py:872-912):
`some resp` short-circuits the endpoint; `none` falls through to the queue
flow.  A room whose slots are missing/empty/equal is deleted and the flow
continues; a well-formed room with an invalid partner id is deleted and the
call returns `searching`. -/
def matchExistingRoom (st : Store) (userId : String) : Option MatchResp × Store :=
  match get_user_room st userId with
  | none => (none, st)
  | some existingRoomId =>
    if existingRoomId = "" then (none, st)
    else
      match get_room st existingRoomId with
      | none => (none, st)
      | some room =>
        match room.user1Id, room.user2Id with
        | some user1, some user2 =>
          if user1 ≠ "" ∧ user2 ≠ "" ∧ user1 ≠ user2 then
            let partnerId := if user1 ≠ userId then user1 else user2
            if partnerId ≠ "" ∧ partnerId ≠ userId ∧ stripStr partnerId ≠ "" then
              let partnerIsGuest :=
                if user1 ≠ userId then room.user1IsGuest else room.user2IsGuest
              (some (MatchResp.matched existingRoomId partnerId partnerIsGuest), st)
            else (some MatchResp.searching, (delete_room st existingRoomId).2)
          else (none, (delete_room st existingRoomId).2)
        | _, _ => (none, (delete_room st existingRoomId).2)

/-- The no-candidate tail of `skip_match` (server.py:1148-1198): re-check the
user's room (with the same validation as the entry check) and otherwise
return `searching`; here a malformed room is deleted and the call still
returns `searching`. -/
def matchNoPartner (st : Store) (userId : String) : MatchResp × Store :=
  match get_user_room st userId with
  | none => (MatchResp.searching, st)
  | some existingRoomId =>
    if existingRoomId = "" then (MatchResp.searching, st)
    else
      match get_room st existingRoomId with
      | none => (MatchResp.searching, st)
      | some room =>
        match room.user1Id, room.user2Id with
        | some user1, some user2 =>
          if user1 ≠ "" ∧ user2 ≠ "" ∧ user1 ≠ user2 then
            let partnerId := if user1 ≠ userId then user1 else user2
            if partnerId ≠ "" ∧ partnerId ≠ userId ∧ stripStr partnerId ≠ "" then
              let partnerIsGuest :=
                if user1 ≠ userId then room.user1IsGuest else room.user2IsGuest
              (MatchResp.matched existingRoomId partnerId partnerIsGuest, st)
            else (MatchResp.searching, (delete_room st existingRoomId).2)
          else (MatchResp.searching, (delete_room st existingRoomId).2)
        | _, _ => (MatchResp.searching, (delete_room st existingRoomId).2)

/-- Re-enqueue of the partner slot read back from the room
(server.py:1120-1122): `actual_partner` is re-added only when truthy. -/
def addActualPartner (st : Store) (actualPartner : Option String)
    (partnerIsGuest : Bool) (partnerGender : Gender) (now : Nat) : Store :=
  match actualPartner with
  | some a =>
    if a ≠ "" then (add_to_queue st a partnerIsGuest partnerGender now).2 else st
  | none => st

/-- The mandatory post-write verification of `skip_match`
(server.py:1094-1147): re-read the freshly created room; a missing room
re-enqueues both sides; missing/empty/equal slots delete the room and
re-enqueue both sides; an invalid local partner id deletes the room and
re-enqueues the user plus the partner slot read from the room; otherwise
the call reports `matched`. -/
def post_write_verify (st : Store) (userId partnerId : String)
    (isGuest partnerIsGuest : Bool) (userGender partnerGender : Gender)
    (roomId : String) (now : Nat) : MatchResp × Store :=
  match get_room st roomId with
  | none =>
    let st1 := (add_to_queue st userId isGuest userGender now).2
    let st2 := (add_to_queue st1 partnerId partnerIsGuest partnerGender now).2
    (MatchResp.searching, st2)
  | some verifyRoom =>
    if ¬truthyOpt verifyRoom.user1Id ∨ ¬truthyOpt verifyRoom.user2Id ∨
        verifyRoom.user1Id = verifyRoom.user2Id then
      let st1 := (delete_room st roomId).2
      let st2 := (add_to_queue st1 userId isGuest userGender now).2
      let st3 := (add_to_queue st2 partnerId partnerIsGuest partnerGender now).2
      (MatchResp.searching, st3)
    else if partnerId = "" ∨ partnerId = userId ∨ stripStr partnerId = "" then
      let st1 := (delete_room st roomId).2
      let st2 := (add_to_queue st1 userId isGuest userGender now).2
      let actualPartner :=
        if verifyRoom.user1Id ≠ some userId then verifyRoom.user1Id
        else verifyRoom.user2Id
      let st3 := addActualPartner st2 actualPartner partnerIsGuest partnerGender now
      (MatchResp.searching, st3)
    else (MatchResp.matched roomId partnerId partnerIsGuest, st)

/-- Room creation and verification (server.py:1042-1147): create the room
(user1 = partner, user2 = caller), release the claim (a fallback no-op),
repair mismatched user→room mappings, then run the post-write verification. -/
def createAndVerify (st : Store) (userId partnerId : String)
    (isGuest partnerIsGuest : Bool) (userGender partnerGender : Gender)
    (now : Nat) (newRoomId : String) : MatchResp × Store :=
  match create_room st newRoomId partnerId userId partnerIsGuest isGuest
      partnerGender userGender now with
  | (roomCreated, st1) =>
    if ¬roomCreated then
      let st2 := (add_to_queue st1 userId isGuest userGender now).2
      let st3 := (add_to_queue st2 partnerId partnerIsGuest partnerGender now).2
      (MatchResp.searching, st3)
    else
      let userRoom := get_user_room st1 userId
      let partnerRoom := get_user_room st1 partnerId
      let fixedMap := aset (aset st1.userToRoom userId newRoomId) partnerId newRoomId
      let st2 :=
        if userRoom ≠ some newRoomId ∨ partnerRoom ≠ some newRoomId then
          { st1 with userToRoom := fixedMap }
        else st1
      post_write_verify st2 userId partnerId isGuest partnerIsGuest
        userGender partnerGender newRoomId now

/-- The pairing continuation after the claimed partner's room has been
cleared (server.py:1011-1147): dequeue the caller, re-check whether the
partner acquired a room meanwhile (using it when it contains the caller,
otherwise releasing the claim and re-enqueueing the caller), then create
and verify the new room. -/
def pairWithPartner (st : Store) (userId partnerId : String)
    (isGuest partnerIsGuest : Bool) (userGender partnerGender : Gender)
    (now : Nat) (newRoomId : String) : MatchResp × Store :=
  let st1 := (remove_from_queue st userId).2
  match get_user_room st1 partnerId with
  | some roomCheck =>
    if roomCheck ≠ "" then
      match get_room st1 roomCheck with
      | some prd =>
        if (prd.user1Id = some userId ∨ prd.user2Id = some userId) ∧
            truthyOpt prd.user1Id = true ∧ truthyOpt prd.user2Id = true then
          let pg :=
            if prd.user1Id ≠ some userId then prd.user1IsGuest else prd.user2IsGuest
          (MatchResp.matched roomCheck partnerId pg, st1)
        else
          let st2 := (add_to_queue st1 userId isGuest userGender now).2
          (MatchResp.searching, st2)
      | none =>
        createAndVerify st1 userId partnerId isGuest partnerIsGuest
          userGender partnerGender now newRoomId
    else
      createAndVerify st1 userId partnerId isGuest partnerIsGuest
        userGender partnerGender now newRoomId
  | none =>
    createAndVerify st1 userId partnerId isGuest partnerIsGuest
      userGender partnerGender now newRoomId

/-- The candidate flow of `skip_match` once a compatible partner list is
non-empty (server.py:940-1147): guard against temp-guest ids, empty ids and
self-matches; atomically claim the partner; handle the partner already
being in a room (server.py:979-1009); then pair. -/
def tryMatchPartner (st : Store) (userId : String) (isGuest : Bool)
    (userGender : Gender) (partner : QueueEntry) (now : Nat)
    (newRoomId : String) : MatchResp × Store :=
  let partnerId := partner.userId
  let partnerIsGuest := partner.isGuest
  let partnerGender := partner.gender
  if partnerId ≠ "" ∧ (startsWithStr partnerId "temp_guest_" = true ∨
      startsWithStr userId "temp_guest_" = true) then
    (MatchResp.searching, st)
  else if partnerId = "" then (MatchResp.searching, st)
  else if partnerId = userId then (MatchResp.searching, st)
  else
    match claim_partner_fallback st partnerId with
    | (false, st1) =>
      let st2 :=
        if ¬is_user_in_queue st1 userId
        then (add_to_queue st1 userId isGuest userGender now).2 else st1
      (MatchResp.searching, st2)
    | (true, st1) =>
      match get_user_room st1 partnerId with
      | some partnerRoom =>
        if partnerRoom ≠ "" then
          match get_room st1 partnerRoom with
          | some prd =>
            if (prd.user1Id = some userId ∨ prd.user2Id = some userId) ∧
                truthyOpt prd.user1Id = true ∧ truthyOpt prd.user2Id = true then
              if partnerId = "" ∨ partnerId = userId ∨ stripStr partnerId = "" then
                (MatchResp.searching, st1)
              else
                let pg :=
                  if prd.user1Id ≠ some userId then prd.user1IsGuest
                  else prd.user2IsGuest
                (MatchResp.matched partnerRoom partnerId pg, st1)
            else
              let st2 :=
                if ¬is_user_in_queue st1 userId
                then (add_to_queue st1 userId isGuest userGender now).2 else st1
              (MatchResp.searching, st2)
          | none =>
            pairWithPartner st1 userId partnerId isGuest partnerIsGuest
              userGender partnerGender now newRoomId
        else
          pairWithPartner st1 userId partnerId isGuest partnerIsGuest
            userGender partnerGender now newRoomId
      | none =>
        pairWithPartner st1 userId partnerId isGuest partnerIsGuest
          userGender partnerGender now newRoomId

/-- The `/skip/match` body after identity/gender resolution
(server.py:872-1198), fallback-mode store semantics: already-matched check,
self-registration in the queue, candidate search, claim, pairing and
verification.  `now` is the current timestamp, `newRoomId` the
`skip_{uuid4}` value generated for a new room. -/
def skip_match_core (st : Store) (userId : String) (isGuest : Bool)
    (userGender : Gender) (now : Nat) (newRoomId : String) : MatchResp × Store :=
  match matchExistingRoom st userId with
  | (some resp, st1) => (resp, st1)
  | (none, st1) =>
    let st2 :=
      if ¬is_user_in_queue st1 userId
      then (add_to_queue st1 userId isGuest userGender now).2 else st1
    match get_compatible_partners st2 userId userGender with
    | [] => matchNoPartner st2 userId
    | partner :: _ =>
      tryMatchPartner st2 userId isGuest userGender partner now newRoomId

/-- The full `/skip/match` endpoint (server.py:789-1198): resolve gender,
resolve identity (HTTP 400 when neither a token identity nor a guest id is
derivable — the store is untouched in that case), then run the match flow. -/
def skip_match_endpoint (verifyTok : String → Option String)
    (request : Option SkipMatchRequest) (authorization : Option String)
    (st : Store) (now : Nat) (newRoomId : String) :
    Except Unit MatchResp × Store :=
  let userGender := resolve_gender request
  match resolve_identity verifyTok request authorization with
  | Except.error e => (Except.error e, st)
  | Except.ok (userId, isGuest) =>
    let r := skip_match_core st userId isGuest userGender now newRoomId
    (Except.ok r.1, r.2)

/-- The `/skip/leave` body once an identity is known (server.py:1240-1266):
dequeue the user; when the user's room mapping points at an existing room,
delete that room (which also removes both reverse-index entries). -/
def skip_leave_core (st : Store) (userId : String) : Store :=
  let st1 := (remove_from_queue st userId).2
  match get_user_room st1 userId with
  | none => st1
  | some roomId =>
    if roomId = "" then st1
    else
      match get_room st1 roomId with
      | none => st1
      | some _ => (delete_room st1 roomId).2

/-- The full `/skip/leave` endpoint (server.py:1200-1266): token identity
(without a demo-token case), then the request's guest id; with no identity
the call is a no-op that still returns `left` (the code's final
`raise 400` branch is unreachable: its `elif` already covers every
request shape without a truthy guest id). -/
def skip_leave_endpoint (verifyTok : String → Option String)
    (request : Option SkipLeaveRequest) (authorization : Option String)
    (st : Store) : LeaveResp × Store :=
  match token_identity_leave verifyTok authorization with
  | some uid => (LeaveResp.left, skip_leave_core st uid)
  | none =>
    match request with
    | some r =>
      match r.guestId with
      | some g =>
        if g ≠ "" then (LeaveResp.left, skip_leave_core st g)
        else (LeaveResp.left, st)
      | none => (LeaveResp.left, st)
    | none => (LeaveResp.left, st)

/-- The `/skip/status` body once an identity is known (server.py:1293-1312):
`searching` when queued; otherwise `matched` for whatever room the user's
mapping points at — the slots are not validated, and the reported
`partnerId` is just the slot not equal to the caller (possibly `None` or
the caller itself); `idle` otherwise. -/
def skip_status_core (st : Store) (userId : String) : StatusResp :=
  if is_user_in_queue st userId then StatusResp.searching
  else
    match get_user_room st userId with
    | none => StatusResp.idle
    | some roomId =>
      if roomId = "" then StatusResp.idle
      else
        match get_room st roomId with
        | none => StatusResp.idle
        | some room =>
          let partnerId :=
            if room.user1Id ≠ some userId then room.user1Id else room.user2Id
          StatusResp.matchedStatus roomId partnerId

/-! ## Helper lemmas about the fallback primitives -/

theorem add_to_queue_rooms (st : Store) (u : String) (ig : Bool) (g : Gender)
    (t : Nat) : ((add_to_queue st u ig g t).2).rooms = st.rooms := by
  unfold add_to_queue; split <;> rfl

theorem add_to_queue_userToRoom (st : Store) (u : String) (ig : Bool)
    (g : Gender) (t : Nat) :
    ((add_to_queue st u ig g t).2).userToRoom = st.userToRoom := by
  unfold add_to_queue; split <;> rfl

theorem remove_from_queue_rooms (st : Store) (u : String) :
    ((remove_from_queue st u).2).rooms = st.rooms := rfl

theorem remove_from_queue_userToRoom (st : Store) (u : String) :
    ((remove_from_queue st u).2).userToRoom = st.userToRoom := rfl

theorem delete_room_queue (st : Store) (rid : String) :
    ((delete_room st rid).2).queue = st.queue := by
  unfold delete_room
  cases h : alookup st.rooms rid with
  | none => rfl
  | some room =>
    obtain ⟨u1, u2, b1, b2, ga, gb, ca⟩ := room
    cases u1 <;> cases u2 <;> rfl

theorem get_room_delete_self (st : Store) (rid : String) :
    get_room (delete_room st rid).2 rid = none := by
  unfold get_room delete_room
  cases h : alookup st.rooms rid with
  | none => exact h
  | some room =>
    obtain ⟨u1, u2, b1, b2, ga, gb, ca⟩ := room
    cases u1 <;> cases u2 <;> simp [alookup_aerase]

theorem queueHasUser_append (l1 l2 : List QueueEntry) (u : String) :
    queueHasUser (l1 ++ l2) u = (queueHasUser l1 u || queueHasUser l2 u) := by
  simp [queueHasUser]

theorem queueHasUser_filter_ne (l : List QueueEntry) (u : String) :
    queueHasUser (l.filter (fun e => e.userId ≠ u)) u = false := by
  rw [Bool.eq_false_iff]
  intro h
  rw [queueHasUser, List.any_eq_true] at h
  obtain ⟨x, hx, hxu⟩ := h
  rw [List.mem_filter] at hx
  simp at hx hxu
  exact hx.2 hxu

theorem add_to_queue_mem_self (st : Store) (u : String) (ig : Bool) (g : Gender)
    (t : Nat) : queueHasUser ((add_to_queue st u ig g t).2).queue u = true := by
  unfold add_to_queue
  by_cases h : queueHasUser st.queue u = true
  · rw [if_pos h]; exact h
  · rw [if_neg h]
    show queueHasUser (st.queue ++ [⟨u, ig, g, t⟩]) u = true
    rw [queueHasUser_append]
    simp [queueHasUser]

theorem add_to_queue_mem_mono (st : Store) (u x : String) (ig : Bool)
    (g : Gender) (t : Nat) (h : queueHasUser st.queue x = true) :
    queueHasUser ((add_to_queue st u ig g t).2).queue x = true := by
  unfold add_to_queue
  by_cases hp : queueHasUser st.queue u = true
  · rw [if_pos hp]; exact h
  · rw [if_neg hp]
    show queueHasUser (st.queue ++ [⟨u, ig, g, t⟩]) x = true
    rw [queueHasUser_append, h]
    rfl

theorem wellFormedRoom_false_iff (room : FRoom) :
    wellFormedRoom room = false ↔
      (¬truthyOpt room.user1Id = true ∨ ¬truthyOpt room.user2Id = true ∨
        room.user1Id = room.user2Id) := by
  rw [Bool.eq_false_iff]
  simp only [wellFormedRoom, Bool.and_eq_true, decide_eq_true_eq, Ne, not_and_or]
  tauto

theorem wellFormedRoom_true_iff (room : FRoom) :
    wellFormedRoom room = true ↔
      (truthyOpt room.user1Id = true ∧ truthyOpt room.user2Id = true ∧
        room.user1Id ≠ room.user2Id) := by
  simp [wellFormedRoom, Bool.and_eq_true, and_assoc]

/-! ## C6 — post-write verification -/

/-- C6: after room creation, `skip_match` re-reads the room before
responding. (a) If the re-read room has a missing/empty slot or equal
slots, the room is deleted, both participants are re-enqueued, and the
response is `searching`. (b) A `matched` response can only carry the new
room id and the local partner id, requires the re-read room to be
well-formed (two distinct truthy slots), and leaves the store untouched
from the point of the re-read. -/
theorem C6_post_write_verification (st : Store) (userId partnerId : String)
    (isGuest partnerIsGuest : Bool) (userGender partnerGender : Gender)
    (roomId : String) (now : Nat) :
    (∀ room resp st', get_room st roomId = some room →
      wellFormedRoom room = false →
      post_write_verify st userId partnerId isGuest partnerIsGuest
        userGender partnerGender roomId now = (resp, st') →
      resp = MatchResp.searching ∧ get_room st' roomId = none ∧
        is_user_in_queue st' userId = true ∧ is_user_in_queue st' partnerId = true)
    ∧ (∀ r pid pg st',
        post_write_verify st userId partnerId isGuest partnerIsGuest
          userGender partnerGender roomId now = (MatchResp.matched r pid pg, st') →
        r = roomId ∧ pid = partnerId ∧ st' = st ∧
          ∃ room, get_room st roomId = some room ∧ wellFormedRoom room = true) := by
  constructor
  · intro room resp st' hroom hmal hpost
    unfold post_write_verify at hpost
    split at hpost
    next hnone => rw [hroom] at hnone; cases hnone
    next room2 hsome =>
      rw [hroom] at hsome
      injection hsome with hroomEq
      subst hroomEq
      split at hpost
      next hcond =>
        injection hpost with hresp hst
        subst hresp
        subst hst
        refine ⟨rfl, ?_, ?_, ?_⟩
        · rw [get_room, add_to_queue_rooms, add_to_queue_rooms]
          exact get_room_delete_self st roomId
        · exact add_to_queue_mem_mono _ partnerId userId partnerIsGuest partnerGender now
            (add_to_queue_mem_self _ userId isGuest userGender now)
        · exact add_to_queue_mem_self _ partnerId partnerIsGuest partnerGender now
      next hcond =>
        exact absurd ((wellFormedRoom_false_iff room).mp hmal) hcond
  · intro r pid pg st' hpost
    unfold post_write_verify at hpost
    split at hpost
    next hnone => injection hpost with hresp hst; cases hresp
    next room hsome =>
      split at hpost
      next hcond => injection hpost with hresp hst; cases hresp
      next hcond =>
        split at hpost
        next hpid => injection hpost with hresp hst; cases hresp
        next hpid =>
          injection hpost with hresp hst
          injection hresp with hr hp hg
          refine ⟨hr.symm, hp.symm, hst.symm, room, hsome, ?_⟩
          rw [wellFormedRoom_true_iff]
          push_neg at hcond
          exact ⟨hcond.1, hcond.2.1, hcond.2.2⟩

/-- A store holding a malformed room `R` (both slots `"a"`). -/
def c6Store : Store :=
  ⟨[], [("R", ⟨some "a", some "a", false, false, Gender.other, Gender.other, 0⟩)],
   [("a", "R")]⟩

/-- Witness for C6: verifying the malformed room `R` deletes it,
re-enqueues both sides, and answers `searching`. -/
theorem C6_post_write_verification_witness :
    (post_write_verify c6Store "u" "p" false false Gender.other Gender.other "R" 3).1 =
      MatchResp.searching ∧
    get_room (post_write_verify c6Store "u" "p" false false Gender.other Gender.other "R" 3).2
      "R" = none ∧
    is_user_in_queue
      (post_write_verify c6Store "u" "p" false false Gender.other Gender.other "R" 3).2
      "u" = true ∧
    is_user_in_queue
      (post_write_verify c6Store "u" "p" false false Gender.other Gender.other "R" 3).2
      "p" = true :=
  (C6_post_write_verification c6Store "u" "p" false false Gender.other Gender.other "R" 3).1
    ⟨some "a", some "a", false, false, Gender.other, Gender.other, 0⟩ _ _
    (by decide) (by decide) rfl

/-! ## C7 — identity is required, never minted -/

/-- C7: `skip_match` rejects exactly the calls with neither a token-derived
identity nor a truthy guest id; a rejection leaves the store untouched; and
an accepted identity always comes verbatim from the verified token or from
the request's guest id — no synthetic identity is minted. -/
theorem C7_identity_required (verifyTok : String → Option String)
    (request : Option SkipMatchRequest) (authorization : Option String)
    (st : Store) (now : Nat) (newRoomId : String) :
    ((skip_match_endpoint verifyTok request authorization st now newRoomId).1 =
        Except.error () ↔
      (token_identity verifyTok authorization = none ∧
       guest_identity request = none))
    ∧ ((skip_match_endpoint verifyTok request authorization st now newRoomId).1 =
        Except.error () →
      (skip_match_endpoint verifyTok request authorization st now newRoomId).2 = st)
    ∧ (∀ uid isGuest,
        resolve_identity verifyTok request authorization = Except.ok (uid, isGuest) →
        (isGuest = false ∧ token_identity verifyTok authorization = some uid) ∨
        (isGuest = true ∧ token_identity verifyTok authorization = none ∧
         guest_identity request = some uid)) := by
  refine ⟨?_, ?_, ?_⟩
  · unfold skip_match_endpoint resolve_identity
    cases htok : token_identity verifyTok authorization with
    | some uid => simp [htok]
    | none =>
      cases hg : guest_identity request with
      | some gid => simp [hg]
      | none => simp [hg]
  · unfold skip_match_endpoint resolve_identity
    cases htok : token_identity verifyTok authorization with
    | some uid => simp
    | none =>
      cases hg : guest_identity request with
      | some gid => simp
      | none => simp
  · intro uid isGuest h
    unfold resolve_identity at h
    cases htok : token_identity verifyTok authorization with
    | some u =>
      rw [htok] at h
      injection h with h2
      injection h2 with hu hg
      subst hg
      subst hu
      exact Or.inl ⟨rfl, rfl⟩
    | none =>
      rw [htok] at h
      cases hg : guest_identity request with
      | some g =>
        rw [hg] at h
        injection h with h2
        injection h2 with hu hig
        subst hig
        subst hu
        exact Or.inr ⟨rfl, rfl, rfl⟩
      | none => rw [hg] at h; cases h

/-- Witness for C7: no token, no body — the call is rejected. -/
theorem C7_identity_required_witness :
    (skip_match_endpoint (fun _ => none) none none Store.init 0 "R").1 =
      Except.error () :=
  ((C7_identity_required (fun _ => none) none none Store.init 0 "R").1).mpr ⟨rfl, rfl⟩

/-! ## C8 — leave -/

theorem skip_leave_core_queue (st : Store) (u : String) :
    (skip_leave_core st u).queue = st.queue.filter (fun e => e.userId ≠ u) := by
  simp only [skip_leave_core]
  split
  · rfl
  next rid =>
    split
    · rfl
    · split
      · rfl
      · rw [delete_room_queue]
        rfl

theorem delete_room_slot_gone (st : Store) (rid : String) (room : FRoom)
    (h : alookup st.rooms rid = some room) :
    (∀ s, room.user1Id = some s → get_user_room (delete_room st rid).2 s = none) ∧
    (∀ s, room.user2Id = some s → get_user_room (delete_room st rid).2 s = none) := by
  obtain ⟨u1, u2, b1, b2, ga, gb, ca⟩ := room
  constructor
  · intro s hs
    simp only at hs
    subst hs
    unfold delete_room
    simp only [h]
    cases u2 <;> simp [get_user_room, alookup_aerase]
  · intro s hs
    simp only at hs
    subst hs
    unfold delete_room
    simp only [h]
    cases u1 <;> simp [get_user_room, alookup_aerase]

/-- C8: `skip_leave` always answers `{status: "left"}`, whatever the
request, authorization and store; the participant is removed from the queue;
and when the participant's room mapping points at an existing room, that
room is deleted together with both reverse-index entries (so the partner's
membership disappears too). -/
theorem C8_leave_always_left (verifyTok : String → Option String)
    (request : Option SkipLeaveRequest) (authorization : Option String)
    (st : Store) (userId : String) :
    ((skip_leave_endpoint verifyTok request authorization st).1 = LeaveResp.left)
    ∧ (is_user_in_queue (skip_leave_core st userId) userId = false)
    ∧ (∀ roomId room, get_user_room st userId = some roomId → roomId ≠ "" →
        get_room st roomId = some room →
        get_room (skip_leave_core st userId) roomId = none ∧
        (∀ s, room.user1Id = some s →
          get_user_room (skip_leave_core st userId) s = none) ∧
        (∀ s, room.user2Id = some s →
          get_user_room (skip_leave_core st userId) s = none)) := by
  refine ⟨?_, ?_, ?_⟩
  · unfold skip_leave_endpoint
    cases htok : token_identity_leave verifyTok authorization with
    | some uid => rfl
    | none =>
      cases request with
      | none => rfl
      | some r =>
        obtain ⟨gid⟩ := r
        cases gid with
        | none => rfl
        | some gval =>
          by_cases hg : gval ≠ ""
          · simp [hg]
          · simp [hg]
  · rw [is_user_in_queue, skip_leave_core_queue]
    exact queueHasUser_filter_ne st.queue userId
  · intro rid room hmap hne hroomst
    have h1 : get_user_room (remove_from_queue st userId).2 userId = some rid := by
      rw [get_user_room, remove_from_queue_userToRoom]; exact hmap
    have h2 : get_room (remove_from_queue st userId).2 rid = some room := by
      rw [get_room, remove_from_queue_rooms]; exact hroomst
    have hcore : skip_leave_core st userId =
        (delete_room (remove_from_queue st userId).2 rid).2 := by
      simp only [skip_leave_core, h1, h2]
      rw [if_neg hne]
    have hdel := delete_room_slot_gone (remove_from_queue st userId).2 rid room h2
    refine ⟨?_, ?_, ?_⟩
    · rw [hcore]; exact get_room_delete_self _ rid
    · intro s hs; rw [hcore]; exact hdel.1 s hs
    · intro s hs; rw [hcore]; exact hdel.2 s hs

/-- A store where `u` is queued and shares room `R` with `v`. -/
def c8Store : Store :=
  ⟨[⟨"u", true, Gender.other, 0⟩],
   [("R", ⟨some "u", some "v", true, true, Gender.other, Gender.other, 0⟩)],
   [("u", "R"), ("v", "R")]⟩

/-- Witness for C8: `u` leaves — response `left`, `u` dequeued, room `R`
gone, and partner `v`'s reverse-index entry gone. -/
theorem C8_leave_always_left_witness :
    (skip_leave_endpoint (fun _ => none) (some ⟨some "u"⟩) none c8Store).1 =
      LeaveResp.left ∧
    is_user_in_queue (skip_leave_core c8Store "u") "u" = false ∧
    get_room (skip_leave_core c8Store "u") "R" = none ∧
    get_user_room (skip_leave_core c8Store "u") "v" = none := by
  have h := C8_leave_always_left (fun _ => none) (some ⟨some "u"⟩) none c8Store "u"
  have h3 := h.2.2 "R" ⟨some "u", some "v", true, true, Gender.other, Gender.other, 0⟩
    (by decide) (by decide) (by decide)
  exact ⟨h.1, h.2.1, h3.1, h3.2.2 "v" rfl⟩

/-! ## C10 — missing gender defaults to OTHER -/

theorem skip_match_endpoint_error_iff (verifyTok : String → Option String)
    (request : Option SkipMatchRequest) (authorization : Option String)
    (st : Store) (now : Nat) (newRoomId : String) :
    (skip_match_endpoint verifyTok request authorization st now newRoomId).1 =
        Except.error () ↔
      resolve_identity verifyTok request authorization = Except.error () := by
  unfold skip_match_endpoint
  cases hres : resolve_identity verifyTok request authorization with
  | error e => simp
  | ok p => simp

/-- C10: a request with a usable identity but no gender is never rejected
for the missing gender (rejection depends only on identity), the gender is
defaulted to `OTHER`, and such requesters are enqueued in and matched from
the `other` compatibility bucket: two genderless guests `a1`, `a2` get
paired with each other. -/
theorem C10_gender_default (verifyTok : String → Option String)
    (gid : Option String) (g : Gender) (authorization : Option String)
    (st : Store) (now : Nat) (newRoomId : String) :
    ((skip_match_endpoint verifyTok (some ⟨gid, none⟩) authorization st now newRoomId).1 =
        Except.error () ↔
      (skip_match_endpoint verifyTok (some ⟨gid, some g⟩) authorization st now newRoomId).1 =
        Except.error ())
    ∧ resolve_gender (some ⟨gid, none⟩) = Gender.other
    ∧ (skip_match_endpoint verifyTok (some ⟨some "a1", none⟩) none Store.init 1 "RA").1 =
        Except.ok MatchResp.searching
    ∧ (skip_match_endpoint verifyTok (some ⟨some "a1", none⟩) none Store.init 1 "RA").2.queue =
        [⟨"a1", true, Gender.other, 1⟩]
    ∧ (skip_match_endpoint verifyTok (some ⟨some "a2", none⟩) none
        (skip_match_endpoint verifyTok (some ⟨some "a1", none⟩) none Store.init 1 "RA").2
        2 "RB").1 = Except.ok (MatchResp.matched "RB" "a1" true) := by
  have hsame : resolve_identity verifyTok (some ⟨gid, none⟩) authorization =
      resolve_identity verifyTok (some ⟨gid, some g⟩) authorization := rfl
  refine ⟨?_, rfl, rfl, rfl, rfl⟩
  rw [skip_match_endpoint_error_iff, skip_match_endpoint_error_iff, hsame]

/-- Witness for C10: a request without a gender resolves to `OTHER`. -/
theorem C10_gender_default_witness :
    resolve_gender (some ⟨some "x", none⟩) = Gender.other :=
  (C10_gender_default (fun _ => none) (some "x") Gender.male none Store.init 0 "R").2.1

/-! ## C9 — sticky fallback degradation -/

/-- The whole `RedisQueueService` state (redis_service.py:30-39): the
`fallback_mode` flag, the in-process fallback structures, and the Redis
keyspace. -/
structure ServiceState where
  fallbackMode : Bool
  fb : Store
  rs : RedisState
deriving DecidableEq, Repr

/-- One public store operation of `RedisQueueService` with its arguments. -/
inductive StoreOp
  | addToQueue (userId : String) (isGuest : Bool) (gender : Gender) (timestamp : Nat)
  | removeFromQueue (userId : String)
  | getQueueLength
  | getCompatiblePartners (userId : String) (gender : Gender)
  | createRoom (roomId user1Id user2Id : String) (user1IsGuest user2IsGuest : Bool)
      (user1Gender user2Gender : Gender) (now : Nat)
  | getRoom (roomId : String)
  | getUserRoom (userId : String)
  | deleteRoom (roomId : String)
  | isUserInQueue (userId : String)
  | claimPartner (userId partnerId : String)
  | releaseClaim (partnerId : String)
deriving DecidableEq, Repr

/-- State transition of one operation.  `fail` abstracts the first Redis
client call of the `try` block raising (only relevant outside fallback
mode).  `add_to_queue` and `create_room` react to a failure by setting
`fallback_mode = True` and re-running themselves, which then takes the
fallback branch (redis_service.py:125-128, 291-295); every other operation
catches, logs and returns a default without touching the flag.  Reads
(`get_queue_length`, `get_compatible_partners`, `get_room`,
`get_user_room`, `is_user_in_queue`) never mutate state. -/
def applyOp (op : StoreOp) (fail : Bool) (s : ServiceState) : ServiceState :=
  match op with
  | StoreOp.addToQueue u ig g t =>
    if s.fallbackMode then { s with fb := (add_to_queue s.fb u ig g t).2 }
    else if fail then
      { s with fallbackMode := true, fb := (add_to_queue s.fb u ig g t).2 }
    else { s with rs := add_to_queue_redis s.rs u ig g t }
  | StoreOp.removeFromQueue u =>
    if s.fallbackMode then { s with fb := (remove_from_queue s.fb u).2 }
    else if fail then s
    else { s with rs := remove_from_queue_redis s.rs u }
  | StoreOp.getQueueLength => s
  | StoreOp.getCompatiblePartners _ _ => s
  | StoreOp.createRoom rid u1 u2 b1 b2 ga gb now =>
    if s.fallbackMode then
      { s with fb := (create_room s.fb rid u1 u2 b1 b2 ga gb now).2 }
    else if fail then
      { s with fallbackMode := true,
               fb := (create_room s.fb rid u1 u2 b1 b2 ga gb now).2 }
    else { s with rs := create_room_redis s.rs rid u1 u2 b1 b2 ga gb now }
  | StoreOp.getRoom _ => s
  | StoreOp.getUserRoom _ => s
  | StoreOp.deleteRoom rid =>
    if s.fallbackMode then { s with fb := (delete_room s.fb rid).2 }
    else if fail then s
    else { s with rs := delete_room_redis s.rs rid }
  | StoreOp.isUserInQueue _ => s
  | StoreOp.claimPartner u p =>
    if s.fallbackMode then { s with fb := (claim_partner_fallback s.fb p).2 }
    else if fail then s
    else { s with rs := (claim_partner_redis s.rs u p).2 }
  | StoreOp.releaseClaim p =>
    if s.fallbackMode then s
    else if fail then s
    else { s with rs := release_partner_claim_redis s.rs p }

/-- C9: degradation is sticky — once `fallback_mode` is set, every queue,
room, or claim operation leaves it set (the flag is monotone), and no such
operation ever touches the Redis keyspace again, whether or not the
underlying client call would fail. -/
theorem C9_fallback_sticky (op : StoreOp) (fail : Bool) (s : ServiceState)
    (h : s.fallbackMode = true) :
    (applyOp op fail s).fallbackMode = true ∧ (applyOp op fail s).rs = s.rs := by
  cases op <;> simp [applyOp, h]

/-- Witness for C9: an enqueue performed in fallback mode keeps the flag. -/
theorem C9_fallback_sticky_witness :
    (applyOp (StoreOp.addToQueue "u" true Gender.other 0) false
      ⟨true, Store.init, RedisState.init⟩).fallbackMode = true :=
  (C9_fallback_sticky (StoreOp.addToQueue "u" true Gender.other 0) false
    ⟨true, Store.init, RedisState.init⟩ rfl).1

/-! ## C1 — no malformed room is observable

Strategy: every store state reachable through the matchmaking API keeps the
invariant that all stored rooms are well-formed (two distinct truthy
slots), because rooms are only ever written by `create_room` behind the
matchmaker's id checks and only ever removed otherwise. -/

/-- Every room in the store is well-formed. -/
def wellRooms (st : Store) : Prop :=
  ∀ r room, alookup st.rooms r = some room → wellFormedRoom room = true

theorem claim_partner_fallback_rooms (st : Store) (p : String) :
    ((claim_partner_fallback st p).2).rooms = st.rooms := by
  unfold claim_partner_fallback; split <;> rfl

theorem delete_room_rooms_sub (st : Store) (rid r : String) (room : FRoom)
    (h : alookup ((delete_room st rid).2).rooms r = some room) :
    alookup st.rooms r = some room := by
  unfold delete_room at h
  split at h
  · exact h
  next rm heq =>
    obtain ⟨u1, u2, b1, b2, ga, gb, ca⟩ := rm
    cases u1 <;> cases u2 <;>
      · have h2 : alookup (aerase st.rooms rid) r = some room := h
        rw [alookup_aerase] at h2
        by_cases hr : r = rid
        · rw [if_pos hr] at h2; cases h2
        · rw [if_neg hr] at h2; exact h2

theorem wellRooms_delete (st : Store) (rid : String) (hw : wellRooms st) :
    wellRooms (delete_room st rid).2 :=
  fun r room h => hw r room (delete_room_rooms_sub st rid r room h)

theorem wellRooms_add (st : Store) (u : String) (ig : Bool) (g : Gender)
    (t : Nat) (hw : wellRooms st) : wellRooms (add_to_queue st u ig g t).2 := by
  intro r room h
  rw [add_to_queue_rooms] at h
  exact hw r room h

theorem wellRooms_remove (st : Store) (u : String) (hw : wellRooms st) :
    wellRooms (remove_from_queue st u).2 :=
  fun r room h => hw r room h

theorem wellRooms_claim (st : Store) (p : String) (hw : wellRooms st) :
    wellRooms (claim_partner_fallback st p).2 := by
  intro r room h
  rw [claim_partner_fallback_rooms] at h
  exact hw r room h

theorem wellRooms_set_userToRoom (st : Store) (m : List (String × String))
    (hw : wellRooms st) : wellRooms { st with userToRoom := m } :=
  fun r room h => hw r room h

theorem wellRooms_create (st : Store) (rid u1 u2 : String) (b1 b2 : Bool)
    (ga gb : Gender) (now : Nat) (hw : wellRooms st)
    (h1 : u1 ≠ "") (h2 : u2 ≠ "") (h12 : u1 ≠ u2) :
    wellRooms (create_room st rid u1 u2 b1 b2 ga gb now).2 := by
  intro r room h
  have h' : alookup (aset st.rooms rid
      ⟨some u1, some u2, b1, b2, ga, gb, now⟩) r = some room := h
  rw [alookup_aset] at h'
  by_cases hr : rid = r
  · rw [if_pos hr] at h'
    injection h' with he
    subst he
    simp [wellFormedRoom, truthyOpt, h1, h2, h12]
  · rw [if_neg hr] at h'
    exact hw r room h'

theorem wellRooms_addActual (st : Store) (x : Option String) (pg : Bool)
    (gp : Gender) (now : Nat) (hw : wellRooms st) :
    wellRooms (addActualPartner st x pg gp now) := by
  unfold addActualPartner
  split
  · split
    · exact wellRooms_add _ _ _ _ _ hw
    · exact hw
  · exact hw

theorem wellRooms_addIf (st : Store) (c : Prop) [Decidable c] (u : String)
    (ig : Bool) (g : Gender) (t : Nat) (hw : wellRooms st) :
    wellRooms (if c then (add_to_queue st u ig g t).2 else st) := by
  split
  · exact wellRooms_add _ _ _ _ _ hw
  · exact hw

theorem wellRooms_post_write (st : Store) (u p : String) (ig pg : Bool)
    (gu gp : Gender) (rid : String) (now : Nat) (hw : wellRooms st) :
    wellRooms (post_write_verify st u p ig pg gu gp rid now).2 := by
  unfold post_write_verify
  split
  · exact wellRooms_add _ _ _ _ _ (wellRooms_add _ _ _ _ _ hw)
  · split
    · exact wellRooms_add _ _ _ _ _
        (wellRooms_add _ _ _ _ _ (wellRooms_delete _ _ hw))
    · split
      · exact wellRooms_addActual _ _ _ _ _
          (wellRooms_add _ _ _ _ _ (wellRooms_delete _ _ hw))
      · exact hw

theorem wellRooms_createAndVerify (st : Store) (u p : String) (ig pg : Bool)
    (gu gp : Gender) (now : Nat) (rid : String) (hw : wellRooms st)
    (hp : p ≠ "") (hu : u ≠ "") (hpu : p ≠ u) :
    wellRooms (createAndVerify st u p ig pg gu gp now rid).2 := by
  unfold createAndVerify
  split
  next roomCreated st1 heq =>
    have hst1 : wellRooms st1 := by
      have hc := wellRooms_create st rid p u pg ig gp gu now hw hp hu hpu
      rw [heq] at hc
      exact hc
    split
    · exact wellRooms_add _ _ _ _ _ (wellRooms_add _ _ _ _ _ hst1)
    · apply wellRooms_post_write
      split
      · exact wellRooms_set_userToRoom _ _ hst1
      · exact hst1

theorem wellRooms_pair (st : Store) (u p : String) (ig pg : Bool)
    (gu gp : Gender) (now : Nat) (rid : String) (hw : wellRooms st)
    (hp : p ≠ "") (hu : u ≠ "") (hpu : p ≠ u) :
    wellRooms (pairWithPartner st u p ig pg gu gp now rid).2 := by
  simp only [pairWithPartner]
  split
  next rc heq =>
    split
    · split
      next prd heq2 =>
        split
        · exact wellRooms_remove _ _ hw
        · exact wellRooms_add _ _ _ _ _ (wellRooms_remove _ _ hw)
      next heq2 =>
        exact wellRooms_createAndVerify _ _ _ _ _ _ _ _ _
          (wellRooms_remove _ _ hw) hp hu hpu
    · exact wellRooms_createAndVerify _ _ _ _ _ _ _ _ _
        (wellRooms_remove _ _ hw) hp hu hpu
  next heq =>
    exact wellRooms_createAndVerify _ _ _ _ _ _ _ _ _
      (wellRooms_remove _ _ hw) hp hu hpu

theorem wellRooms_tryMatch (st : Store) (u : String) (ig : Bool) (g : Gender)
    (partner : QueueEntry) (now : Nat) (rid : String)
    (hw : wellRooms st) (hu : u ≠ "") :
    wellRooms (tryMatchPartner st u ig g partner now rid).2 := by
  simp only [tryMatchPartner]
  split
  · exact hw
  next hguard =>
    split
    · exact hw
    next hempty =>
      split
      · exact hw
      next hself =>
        split
        next st1 heq =>
          have hst1 : wellRooms st1 := by
            have hc := wellRooms_claim st partner.userId hw
            rw [heq] at hc
            exact hc
          exact wellRooms_addIf _ _ _ _ _ _ hst1
        next st1 heq =>
          have hst1 : wellRooms st1 := by
            have hc := wellRooms_claim st partner.userId hw
            rw [heq] at hc
            exact hc
          have hp : partner.userId ≠ "" := hempty
          have hpu : partner.userId ≠ u := hself
          split
          next rc heq2 =>
            split
            · split
              next prd heq3 =>
                split
                · split <;> exact hst1
                · exact wellRooms_addIf _ _ _ _ _ _ hst1
              next heq3 =>
                exact wellRooms_pair _ _ _ _ _ _ _ _ _ hst1 hp hu hpu
            · exact wellRooms_pair _ _ _ _ _ _ _ _ _ hst1 hp hu hpu
          next heq2 =>
            exact wellRooms_pair _ _ _ _ _ _ _ _ _ hst1 hp hu hpu

theorem wellRooms_matchExisting (st : Store) (u : String) (o : Option MatchResp)
    (st' : Store) (heq : matchExistingRoom st u = (o, st')) (hw : wellRooms st) :
    wellRooms st' := by
  unfold matchExistingRoom at heq
  repeat' split at heq
  all_goals try (dsimp only at heq; split at heq)
  all_goals injection heq with h1 h2
  all_goals subst h2
  all_goals first
    | exact hw
    | exact wellRooms_delete _ _ hw

theorem wellRooms_matchNoPartner (st : Store) (u : String) (r : MatchResp)
    (st' : Store) (heq : matchNoPartner st u = (r, st')) (hw : wellRooms st) :
    wellRooms st' := by
  unfold matchNoPartner at heq
  repeat' split at heq
  all_goals try (dsimp only at heq; split at heq)
  all_goals injection heq with h1 h2
  all_goals subst h2
  all_goals first
    | exact hw
    | exact wellRooms_delete _ _ hw

theorem wellRooms_leave (st : Store) (u : String) (hw : wellRooms st) :
    wellRooms (skip_leave_core st u) := by
  simp only [skip_leave_core]
  split
  · exact wellRooms_remove _ _ hw
  next rid0 =>
    split
    · exact wellRooms_remove _ _ hw
    · split
      · exact wellRooms_remove _ _ hw
      · exact wellRooms_delete _ _ (wellRooms_remove _ _ hw)

theorem wellRooms_skip_match (st : Store) (u : String) (ig : Bool) (g : Gender)
    (now : Nat) (rid : String) (hw : wellRooms st) (hu : u ≠ "") :
    wellRooms (skip_match_core st u ig g now rid).2 := by
  simp only [skip_match_core]
  split
  next resp st1 heq =>
    exact wellRooms_matchExisting st u (some resp) st1 heq hw
  next st1 heq =>
    have hst1 : wellRooms st1 := wellRooms_matchExisting st u none st1 heq hw
    split
    · exact wellRooms_matchNoPartner _ u _ _ rfl
        (wellRooms_addIf _ _ _ _ _ _ hst1)
    · exact wellRooms_tryMatch _ u ig g _ now rid
        (wellRooms_addIf _ _ _ _ _ _ hst1) hu

/-- Store states reachable through the matchmaking API from the empty
fallback store.  `matchStep` carries the endpoint's guarantee of a truthy
user id: server.py:848-870 rejects every request whose resolved id is
falsy before any store operation runs (see `C7_identity_required`). -/
inductive Reachable : Store → Prop
  | init : Reachable Store.init
  | matchStep (st : Store) (userId : String) (isGuest : Bool)
      (userGender : Gender) (now : Nat) (newRoomId : String) :
      Reachable st → userId ≠ "" →
      Reachable (skip_match_core st userId isGuest userGender now newRoomId).2
  | leaveStep (st : Store) (userId : String) :
      Reachable st → Reachable (skip_leave_core st userId)

/-- The room invariant holds in every reachable state. -/
theorem reachable_wellRooms (st : Store) (h : Reachable st) : wellRooms st := by
  induction h with
  | init => intro r room hr; cases hr
  | matchStep st userId isGuest userGender now newRoomId _ hne ih =>
    exact wellRooms_skip_match st userId isGuest userGender now newRoomId ih hne
  | leaveStep st userId _ ih =>
    exact wellRooms_leave st userId ih

theorem skip_status_matched_room (st : Store) (u rid : String)
    (pid : Option String)
    (h : skip_status_core st u = StatusResp.matchedStatus rid pid) :
    ∃ room, get_room st rid = some room := by
  unfold skip_status_core at h
  split at h
  · cases h
  · split at h
    · cases h
    next rid0 =>
      split at h
      · cases h
      · split at h
        · cases h
        next room heq =>
          dsimp only at h
          injection h with hr hp
          subst hr
          exact ⟨room, heq⟩

theorem matchExisting_malformed_deleted (st : Store) (u rid : String)
    (room : FRoom) (hmap : get_user_room st u = some rid) (hne : rid ≠ "")
    (hroom : get_room st rid = some room) (hmal : wellFormedRoom room = false) :
    (matchExistingRoom st u).1 = none ∧
    get_room (matchExistingRoom st u).2 rid = none := by
  unfold matchExistingRoom
  simp only [hmap]
  rw [if_neg hne]
  simp only [hroom]
  obtain ⟨u1, u2, b1, b2, ga, gb, ca⟩ := room
  cases u1 with
  | none =>
    cases u2 <;> exact ⟨rfl, get_room_delete_self st rid⟩
  | some s1 =>
    cases u2 with
    | none => exact ⟨rfl, get_room_delete_self st rid⟩
    | some s2 =>
      have hcond : ¬(s1 ≠ "" ∧ s2 ≠ "" ∧ s1 ≠ s2) := by
        intro hc
        have hwf : wellFormedRoom
            ⟨some s1, some s2, b1, b2, ga, gb, ca⟩ = true := by
          rw [wellFormedRoom_true_iff]
          refine ⟨?_, ?_, ?_⟩
          · simp [truthyOpt, hc.1]
          · simp [truthyOpt, hc.2.1]
          · simp [hc.2.2]
        rw [hwf] at hmal
        cases hmal
      dsimp only
      rw [if_neg hcond]
      exact ⟨rfl, get_room_delete_self st rid⟩

/-- C1: in every state reachable through the matchmaking API, (a) every
stored room has two distinct non-empty slots; hence (b) a `matched` Status
response always exhibits a well-formed room, and (c) any room record under
a roomId reported `matched` by `skip_match` is well-formed in the
post-state.  (d) Moreover — over an arbitrary store — `skip_match`'s
already-matched check never returns a malformed room: it deletes it and
falls through instead. -/
theorem C1_no_malformed_room_observable (st : Store) (h : Reachable st) :
    (∀ r room, get_room st r = some room → wellFormedRoom room = true)
    ∧ (∀ uid rid pid, skip_status_core st uid = StatusResp.matchedStatus rid pid →
        ∃ room, get_room st rid = some room ∧ wellFormedRoom room = true)
    ∧ (∀ uid ig g now nrid rid pid pg st', uid ≠ "" →
        skip_match_core st uid ig g now nrid = (MatchResp.matched rid pid pg, st') →
        ∀ room, get_room st' rid = some room → wellFormedRoom room = true)
    ∧ (∀ (stx : Store) uid rid room, get_user_room stx uid = some rid → rid ≠ "" →
        get_room stx rid = some room → wellFormedRoom room = false →
        (matchExistingRoom stx uid).1 = none ∧
        get_room (matchExistingRoom stx uid).2 rid = none) := by
  have hw : wellRooms st := reachable_wellRooms st h
  refine ⟨hw, ?_, ?_, ?_⟩
  · intro uid rid pid hst
    obtain ⟨room, hroom⟩ := skip_status_matched_room st uid rid pid hst
    exact ⟨room, hroom, hw rid room hroom⟩
  · intro uid ig g now nrid rid pid pg st' hne heq room hroom
    have hw' : wellRooms (skip_match_core st uid ig g now nrid).2 :=
      wellRooms_skip_match st uid ig g now nrid hw hne
    rw [heq] at hw'
    exact hw' rid room hroom
  · intro stx uid rid room hmap hne hroom hmal
    exact matchExisting_malformed_deleted stx uid rid room hmap hne hroom hmal

/-- The store after `g1` (male) has requested a match on the empty store. -/
def c1Reach1 : Store := (skip_match_core Store.init "g1" true Gender.male 1 "RA").2

/-- … and after `g2` (female) has then requested a match (they pair in `RB`). -/
def c1Reach2 : Store := (skip_match_core c1Reach1 "g2" true Gender.female 2 "RB").2

/-- Witness for C1: in the reachable two-user state, `g1`'s Status report
of room `RB` exhibits a well-formed room. -/
theorem C1_no_malformed_room_observable_witness :
    ∃ room, get_room c1Reach2 "RB" = some room ∧ wellFormedRoom room = true := by
  have hreach : Reachable c1Reach2 :=
    Reachable.matchStep c1Reach1 "g2" true Gender.female 2 "RB"
      (Reachable.matchStep Store.init "g1" true Gender.male 1 "RA"
        Reachable.init (by decide))
      (by decide)
  exact (C1_no_malformed_room_observable c1Reach2 hreach).2.1 "g1" "RB" (some "g2")
    (by decide)

/-- Witness for C3 at a concrete pair. -/
theorem C3_gender_compatibility_witness :
    are_genders_compatible Gender.male Gender.female = true :=
  (C3_gender_compatibility Gender.male Gender.female).mpr (Or.inl ⟨rfl, rfl⟩)
